import Mathlib

/-!
Shallow embedding of the Basis Trading Monitor dashboard
(`streamlit/app.py`).  HTTP traffic is modeled by passing each call's
outcome as an explicit `Except` value: `Except.error e` stands for the
request raising an exception with message `e`, and `Except.ok r` for a
completed request with response `r`.  Widgets emitted by the script
(`st.error`, `st.success`, `st.info`, charts, tables) are modeled as
lists of items.  Clock readings (`time.time()`) and numeric form
fields are rationals.
-/

/-- A UI message emitted by `st.error` / `st.success`. -/
inductive Notice where
  | errorMsg (msg : String)
  | successMsg (msg : String)
  deriving DecidableEq

/-- A completed HTTP response: status code, the result of `.json()`
(which may itself raise, modeled as `Except.error`), and `.text`. -/
structure HttpResponse (α : Type) where
  status_code : Nat
  jsonBody : Except String α
  text : String

/-- `fetch_data` from `app.py`: issue a GET for `endpoint`; on status
200 return the parsed JSON body, otherwise emit one `st.error` and
return `[]`; any exception is caught and also yields one `st.error`
and `[]`.  The returned pair is (value returned, notices emitted).
The function is total: no exception escapes it. -/
def fetch_data {α : Type} (endpoint : String)
    (resp : Except String (HttpResponse (List α))) : List α × List Notice :=
  match resp with
  | Except.error e =>
      ([], [Notice.errorMsg ("Error fetching " ++ endpoint ++ ": " ++ e)])
  | Except.ok r =>
      if r.status_code = 200 then
        match r.jsonBody with
        | Except.ok data => (data, [])
        | Except.error e =>
            ([], [Notice.errorMsg ("Error fetching " ++ endpoint ++ ": " ++ e)])
      else
        ([], [Notice.errorMsg
          ("Failed to fetch " ++ endpoint ++ ": " ++ toString r.status_code)])

/-- The condition of claim C1 on a fetch outcome: the request raised,
or it completed with a status other than 200. -/
def fetchFailed {α : Type} : Except String (HttpResponse α) → Bool
  | Except.error _ => true
  | Except.ok r => r.status_code != 200

/-- The auto-refresh check from `app.py`:
`if auto_refresh and (time.time() - st.session_state.last_update) > refresh_interval:
   st.session_state.last_update = time.time(); st.rerun()`.
`now1` is the clock reading in the condition, `now2` the one stored on
reset (the code calls `time.time()` twice).  Returns (rerun triggered,
new `last_update`). -/
def refresh_check (auto_refresh : Bool) (refresh_interval : ℚ)
    (last_update now1 now2 : ℚ) : Bool × ℚ :=
  if auto_refresh = true ∧ now1 - last_update > refresh_interval then
    (true, now2)
  else
    (false, last_update)

/-- The five endpoints fetched by the body of the script, in order. -/
def fetch_endpoints : List String :=
  ["health", "basis/snapshots", "strategies", "positions", "trades"]

/-- Outcome of one run of the script (one render cycle): whether
`st.rerun` fired, the session's `last_update` afterwards, and which
endpoints were fetched during this run. -/
structure CycleResult where
  rerun : Bool
  last_update : ℚ
  fetched : List String
  deriving DecidableEq

/-- One render cycle of `app.py`.  The refresh check runs before the
`fetch_data` calls; `st.rerun()` aborts the script immediately, so a
run in which it fires performs no fetches itself (the run it spawns
does), while every other run fetches all five endpoints. -/
def render_cycle (auto_refresh : Bool) (refresh_interval : ℚ)
    (last_update now1 now2 : ℚ) : CycleResult :=
  let rc := refresh_check auto_refresh refresh_interval last_update now1 now2
  if rc.1 then
    { rerun := true, last_update := rc.2, fetched := [] }
  else
    { rerun := false, last_update := rc.2, fetched := fetch_endpoints }

/-- The six values posted by the "Add Strategy" form handler
(`strategy_data` in `app.py`); `is_active` is hard-coded `True`. -/
structure StrategyData where
  spot_symbol : String
  future_symbol : String
  target_basis : ℚ
  max_position : ℚ
  min_trade_size : ℚ
  is_active : Bool
  deriving DecidableEq

/-- The five widget values read inside the `new_strategy` form.  The
three numeric inputs carry `min_value=0.0`, so the widget only ever
yields non-negative values. -/
structure StrategyForm where
  spot_symbol : String
  future_symbol : String
  target_basis : ℚ
  max_position : ℚ
  min_trade_size : ℚ
  deriving DecidableEq

/-- The body built by the submit handler: the five form fields plus
`is_active := true`. -/
def strategy_data_of (f : StrategyForm) : StrategyData :=
  { spot_symbol := f.spot_symbol
    future_symbol := f.future_symbol
    target_basis := f.target_basis
    max_position := f.max_position
    min_trade_size := f.min_trade_size
    is_active := true }

/-- The form submit handler from `app.py`: it POSTs `strategy_data`
once, then on 201 shows `st.success`, on any other status shows
`st.error` with the response text, and any exception is caught and
shown via `st.error`.  Returns (POST bodies issued, notices emitted);
the function is total, so no exception escapes the handler. -/
def handle_strategy_submit (f : StrategyForm)
    (resp : Except String (HttpResponse Unit)) :
    List StrategyData × List Notice :=
  let d := strategy_data_of f
  ([d],
    match resp with
    | Except.error e => [Notice.errorMsg ("Error: " ++ e)]
    | Except.ok r =>
        if r.status_code = 201 then
          [Notice.successMsg "Strategy added successfully!"]
        else
          [Notice.errorMsg ("Failed to add strategy: " ++ r.text)])

/-- A basis snapshot record as fetched from `/basis/snapshots`.
Timestamps are modeled as rationals (the script's
`pd.to_datetime` conversion is the identity in this model). -/
structure Snapshot where
  timestamp : ℚ
  spot_symbol : String
  future_symbol : String
  spot_price : ℚ
  future_price : ℚ
  basis_percent : ℚ
  deriving DecidableEq

/-- A row of `snapshots_df` after the script adds the derived `pair`
column. -/
structure SnapshotRow extends Snapshot where
  pair : String
  deriving DecidableEq

/-- `snapshots_df['pair'] = snapshots_df['spot_symbol'] + '/' +
snapshots_df['future_symbol']`: every row gains a `pair` column. -/
def add_pair_column (snapshots : List Snapshot) : List SnapshotRow :=
  snapshots.map (fun s =>
    { toSnapshot := s, pair := s.spot_symbol ++ "/" ++ s.future_symbol })

/-- Helper for `uniqueKeys`: keep each element not yet `seen`, in
order, threading the values already emitted. -/
def uniqueKeysAux (seen : List String) : List String → List String
  | [] => []
  | x :: xs =>
      if x ∈ seen then uniqueKeysAux seen xs
      else x :: uniqueKeysAux (x :: seen) xs

/-- The distinct values of a column in order of first appearance,
as returned by pandas `Series.unique()`. -/
def uniqueKeys (l : List String) : List String := uniqueKeysAux [] l

/-- One plotly scatter trace added by `create_basis_chart`: the trace
name and its (x, y) = (timestamp, basis_percent) points in dataframe
order. -/
structure Trace where
  name : String
  points : List (ℚ × ℚ)
  deriving DecidableEq

/-- `create_basis_chart` from `app.py`: for each value of
`snapshots_df['pair'].unique()` add one trace whose points are the
rows with that pair, in the order they sit in the dataframe. -/
def create_basis_chart (df : List SnapshotRow) : List Trace :=
  (uniqueKeys (df.map SnapshotRow.pair)).map (fun p =>
    { name := p
      points := (df.filter (fun r => r.pair = p)).map
        (fun r => (r.timestamp, r.basis_percent)) })

/-- The basis panel of the page: either a chart or an `st.info`
placeholder. -/
inductive BasisPanel where
  | chartItem (traces : List Trace)
  | infoMsg (msg : String)
  deriving DecidableEq

/-- The "Basis Analysis" section of `app.py`: with a non-empty
snapshots list it builds the dataframe, adds the `pair` column and
renders the chart (guarded by the redundant `not snapshots_df.empty`
check, which renders nothing when it fails); with an empty list it
renders `st.info("No basis data available yet")`. -/
def render_basis_panel : List Snapshot → List BasisPanel
  | [] => [BasisPanel.infoMsg "No basis data available yet"]
  | s :: ss =>
      let df := add_pair_column (s :: ss)
      if df.isEmpty then [] else [BasisPanel.chartItem (create_basis_chart df)]

/-- A position record as fetched from `/positions`. -/
structure Position where
  symbol : String
  side : String
  size : ℚ
  entry_price : ℚ
  mark_price : ℚ
  unrealized_pl : ℚ
  deriving DecidableEq

/-- The `color_discrete_map={'long': '#00CC88', 'short': '#FF4444'}`
argument of `px.bar`: sides outside the map get no fixed color. -/
def color_discrete_map (side : String) : Option String :=
  if side = "long" then some "#00CC88"
  else if side = "short" then some "#FF4444"
  else none

/-- One bar group produced by `px.bar(..., color='side')`: the side,
its color, and the (x, y) = (symbol, size) bars for positions of that
side, in dataframe order. -/
structure BarSeries where
  side : String
  color : Option String
  bars : List (String × ℚ)
  deriving DecidableEq

/-- `create_position_chart` from `app.py`: `px.bar` with `x='symbol'`,
`y='size'`, `color='side'` groups the rows into one series per
distinct side (in order of first appearance) and colors each series
through `color_discrete_map`.  A plain function of its input: no
session state is read. -/
def create_position_chart (df : List Position) : List BarSeries :=
  (uniqueKeys (df.map Position.side)).map (fun s =>
    { side := s
      color := color_discrete_map s
      bars := (df.filter (fun p => p.side = s)).map
        (fun p => (p.symbol, p.size)) })

/-- A trade record as fetched from `/trades`; `created_at` is modeled
as a rational like the other timestamps. -/
structure Trade where
  id : Nat
  strategy_id : Nat
  side : String
  size : ℚ
  spot_price : ℚ
  future_price : ℚ
  basis : ℚ
  status : String
  created_at : ℚ
  deriving DecidableEq

/-- `trades_df[...].tail(10)`: the last `min(10, n)` rows of the
dataframe (the column selection lists all nine columns, so it is the
identity on rows). -/
def recent_trades_rows (trades : List Trade) : List Trade :=
  trades.drop (trades.length - 10)

/-- The trades panel: either a table of rows or an `st.info`
placeholder. -/
inductive TradesPanel where
  | table (rows : List Trade)
  | infoMsg (msg : String)
  deriving DecidableEq

/-- The "Recent Trades" section of `app.py`: a non-empty trades list
renders the `tail(10)` table, an empty one renders
`st.info("No trades executed yet")`. -/
def render_trades_panel : List Trade → List TradesPanel
  | [] => [TradesPanel.infoMsg "No trades executed yet"]
  | t :: ts => [TradesPanel.table (recent_trades_rows (t :: ts))]

theorem mem_uniqueKeysAux (l : List String) :
    ∀ (seen : List String) (a : String),
      a ∈ uniqueKeysAux seen l ↔ a ∈ l ∧ a ∉ seen := by
  induction l with
  | nil => simp [uniqueKeysAux]
  | cons x xs ih =>
    intro seen a
    by_cases h : x ∈ seen
    · rw [uniqueKeysAux, if_pos h, ih]
      constructor
      · rintro ⟨hx, hs⟩
        exact ⟨List.mem_cons_of_mem _ hx, hs⟩
      · rintro ⟨hx, hs⟩
        rcases List.mem_cons.mp hx with rfl | hx
        · exact absurd h hs
        · exact ⟨hx, hs⟩
    · rw [uniqueKeysAux, if_neg h]
      simp only [List.mem_cons, ih, not_or]
      constructor
      · rintro (rfl | ⟨hx, hne, hs⟩)
        · exact ⟨Or.inl rfl, h⟩
        · exact ⟨Or.inr hx, hs⟩
      · rintro ⟨rfl | hx, hs⟩
        · exact Or.inl rfl
        · by_cases hax : a = x
          · exact Or.inl hax
          · exact Or.inr ⟨hx, hax, hs⟩

theorem mem_uniqueKeys (l : List String) (a : String) :
    a ∈ uniqueKeys l ↔ a ∈ l := by
  rw [uniqueKeys, mem_uniqueKeysAux]
  simp

theorem nodup_uniqueKeysAux (l : List String) :
    ∀ seen : List String, (uniqueKeysAux seen l).Nodup := by
  induction l with
  | nil => simp [uniqueKeysAux]
  | cons x xs ih =>
    intro seen
    by_cases h : x ∈ seen
    · rw [uniqueKeysAux, if_pos h]
      exact ih seen
    · rw [uniqueKeysAux, if_neg h]
      refine List.nodup_cons.mpr ⟨?_, ih (x :: seen)⟩
      intro hmem
      rw [mem_uniqueKeysAux] at hmem
      exact hmem.2 (List.mem_cons_self x seen)

theorem nodup_uniqueKeys (l : List String) : (uniqueKeys l).Nodup :=
  nodup_uniqueKeysAux l []

theorem toFinset_uniqueKeys (l : List String) :
    (uniqueKeys l).toFinset = l.toFinset := by
  ext a
  simp [List.mem_toFinset, mem_uniqueKeys]

theorem length_uniqueKeys (l : List String) :
    (uniqueKeys l).length = l.toFinset.card := by
  rw [← List.toFinset_card_of_nodup (nodup_uniqueKeys l), toFinset_uniqueKeys]

/-- C1: for every fetch call whose request raises or whose response
status is not 200, `fetch_data` returns the empty list and emits
exactly one user-visible error notification; being a total function of
the outcome, it propagates no exception past this boundary. -/
theorem fetch_data_failure_empty_one_error {α : Type} (endpoint : String)
    (resp : Except String (HttpResponse (List α)))
    (h : fetchFailed resp = true) :
    (fetch_data endpoint resp).1 = [] ∧
    ∃ msg, (fetch_data endpoint resp).2 = [Notice.errorMsg msg] := by
  cases resp with
  | error e => exact ⟨rfl, _, rfl⟩
  | ok r =>
    have hr : ¬ r.status_code = 200 := by
      simpa [fetchFailed] using h
    simp [fetch_data, hr]

theorem fetch_data_failure_empty_one_error_witness :
    fetchFailed (Except.error "connection refused" :
        Except String (HttpResponse (List Nat))) = true ∧
    ((fetch_data "trades" (Except.error "connection refused" :
        Except String (HttpResponse (List Nat)))).1 = [] ∧
      ∃ msg, (fetch_data "trades" (Except.error "connection refused" :
        Except String (HttpResponse (List Nat)))).2 =
          [Notice.errorMsg msg]) :=
  ⟨rfl, fetch_data_failure_empty_one_error "trades" _ rfl⟩

/-- C10: when the POST issued by the strategy-form submit handler
raises an exception, the handler catches it and emits a single
user-visible error message built from the exception text; the handler
is a total function, so nothing propagates out of it. -/
theorem handle_strategy_submit_catches_exception (f : StrategyForm)
    (e : String) :
    handle_strategy_submit f (Except.error e) =
      ([strategy_data_of f], [Notice.errorMsg ("Error: " ++ e)]) := rfl

/-- C2 counterexample: a render cycle with auto-refresh disabled and a
large elapsed time (100s against a 5s interval) still issues fetch
requests — the script fetches all five endpoints on every run, the
toggle only gates the timer-driven rerun — so the claim that no fetch
request is issued is false. -/
theorem render_cycle_disabled_still_fetches :
    (100 : ℚ) - 0 > 5 ∧
    (render_cycle false 5 0 100 100).fetched ≠ [] := by
  constructor
  · norm_num
  · simp [render_cycle, refresh_check, fetch_endpoints]

/-- C2 amended: for every render cycle with the auto-refresh toggle
disabled, no timer-driven rerun is triggered and the last-refresh
timestamp is left unchanged, regardless of the elapsed time since the
last refresh; the cycle itself still issues its five fetch requests. -/
theorem render_cycle_disabled_no_rerun (interval lu now1 now2 : ℚ) :
    (render_cycle false interval lu now1 now2).rerun = false ∧
    (render_cycle false interval lu now1 now2).last_update = lu ∧
    (render_cycle false interval lu now1 now2).fetched = fetch_endpoints := by
  simp [render_cycle, refresh_check]

/-- C3 counterexample: with auto-refresh on, interval 5 and elapsed
time exactly 5 seconds, the claim says a re-fetch is triggered (elapsed
≥ 5), but the code's strict comparison `elapsed > refresh_interval`
does not fire. -/
theorem refresh_boundary_not_triggered :
    (5 : ℚ) - 0 ≥ 5 ∧
    (render_cycle true 5 0 5 5).rerun = false := by
  constructor
  · norm_num
  · simp [render_cycle, refresh_check]

/-- C3 amended: with auto-refresh enabled and interval 5, a rerun (and
with it the re-fetch of the next cycle) is triggered exactly when the
elapsed time since the last refresh strictly exceeds 5 seconds, and
the last-refresh timestamp is reset (to the second clock reading)
exactly when the trigger fires, otherwise left unchanged. -/
theorem render_cycle_trigger_iff_strict (lu now1 now2 : ℚ) :
    ((render_cycle true 5 lu now1 now2).rerun = true ↔ now1 - lu > 5) ∧
    (render_cycle true 5 lu now1 now2).last_update =
      (if now1 - lu > 5 then now2 else lu) := by
  by_cases h : now1 - lu > 5
  · simp [render_cycle, refresh_check, h]
  · simp [render_cycle, refresh_check, h]

/-- C4: every submission of the strategy form with valid (non-negative)
numeric fields issues exactly one POST, and its body carries all six
strategy fields collected from the form, with `is_active = true`. -/
theorem handle_strategy_submit_one_request (f : StrategyForm)
    (resp : Except String (HttpResponse Unit))
    (h1 : 0 ≤ f.target_basis) (h2 : 0 ≤ f.max_position)
    (h3 : 0 ≤ f.min_trade_size) :
    (handle_strategy_submit f resp).1.length = 1 ∧
    ∀ d ∈ (handle_strategy_submit f resp).1,
      d.spot_symbol = f.spot_symbol ∧
      d.future_symbol = f.future_symbol ∧
      d.target_basis = f.target_basis ∧
      d.max_position = f.max_position ∧
      d.min_trade_size = f.min_trade_size ∧
      d.is_active = true := by
  refine ⟨rfl, ?_⟩
  intro d hd
  have hd' : d = strategy_data_of f := by
    simpa [handle_strategy_submit] using hd
  subst hd'
  exact ⟨rfl, rfl, rfl, rfl, rfl, rfl⟩

/-- A concrete filled-in strategy form, used to instantiate C4. -/
def sampleForm : StrategyForm :=
  { spot_symbol := "BTC-USD"
    future_symbol := "BTC-PERP"
    target_basis := 5
    max_position := 1
    min_trade_size := 1 / 100 }

theorem handle_strategy_submit_one_request_witness :
    0 ≤ sampleForm.target_basis ∧
    0 ≤ sampleForm.max_position ∧
    0 ≤ sampleForm.min_trade_size ∧
    ((handle_strategy_submit sampleForm
        (Except.error "connection refused")).1.length = 1 ∧
      ∀ d ∈ (handle_strategy_submit sampleForm
          (Except.error "connection refused")).1,
        d.spot_symbol = sampleForm.spot_symbol ∧
        d.future_symbol = sampleForm.future_symbol ∧
        d.target_basis = sampleForm.target_basis ∧
        d.max_position = sampleForm.max_position ∧
        d.min_trade_size = sampleForm.min_trade_size ∧
        d.is_active = true) :=
  ⟨by norm_num [sampleForm], by norm_num [sampleForm],
    by norm_num [sampleForm],
    handle_strategy_submit_one_request sampleForm
      (Except.error "connection refused")
      (by norm_num [sampleForm]) (by norm_num [sampleForm])
      (by norm_num [sampleForm])⟩

/-- C5: every row of the snapshots dataframe after the derivation step
has `pair` equal to the concatenation
`spot_symbol ++ "/" ++ future_symbol` of its own symbol fields. -/
theorem add_pair_column_spec (snapshots : List Snapshot) (r : SnapshotRow)
    (h : r ∈ add_pair_column snapshots) :
    r.pair = r.spot_symbol ++ "/" ++ r.future_symbol := by
  simp only [add_pair_column, List.mem_map] at h
  obtain ⟨s, _, rfl⟩ := h
  rfl

/-- A concrete snapshot record, used to instantiate C5 and C6. -/
def sampleSnapshot : Snapshot :=
  { timestamp := 1
    spot_symbol := "BTC-USD"
    future_symbol := "BTC-PERP"
    spot_price := 50000
    future_price := 50500
    basis_percent := 1 }

theorem add_pair_column_spec_witness :
    ({ toSnapshot := sampleSnapshot, pair := "BTC-USD/BTC-PERP" } :
        SnapshotRow) ∈ add_pair_column [sampleSnapshot] ∧
    ({ toSnapshot := sampleSnapshot, pair := "BTC-USD/BTC-PERP" } :
        SnapshotRow).pair = "BTC-USD" ++ "/" ++ "BTC-PERP" :=
  ⟨List.mem_singleton.mpr rfl,
    add_pair_column_spec [sampleSnapshot] _ (List.mem_singleton.mpr rfl)⟩

/-- C7: with an empty snapshots list the basis panel renders exactly
the informational placeholder, and no chart item at all. -/
theorem render_basis_panel_empty_info :
    render_basis_panel [] = [BasisPanel.infoMsg "No basis data available yet"] ∧
    ∀ traces, BasisPanel.chartItem traces ∉ render_basis_panel [] := by
  refine ⟨rfl, ?_⟩
  intro traces hmem
  simp [render_basis_panel] at hmem

/-- C9: for every non-empty trades list, the recent-trades section
renders one table whose rows are a suffix of the fetched list of
length at most 10 — never more than the last 10 records. -/
theorem render_trades_panel_at_most_ten (trades : List Trade)
    (h : trades ≠ []) :
    render_trades_panel trades = [TradesPanel.table (recent_trades_rows trades)] ∧
    (recent_trades_rows trades).length ≤ 10 ∧
    recent_trades_rows trades <:+ trades := by
  refine ⟨?_, ?_, List.drop_suffix _ _⟩
  · cases trades with
    | nil => exact absurd rfl h
    | cons t ts => rfl
  · simp only [recent_trades_rows, List.length_drop]
    omega

/-- A concrete trade record with a given id, used to instantiate C9
on a list of twelve trades. -/
def sampleTrade (n : Nat) : Trade :=
  { id := n
    strategy_id := 1
    side := "buy"
    size := 1
    spot_price := 50000
    future_price := 50500
    basis := 1
    status := "filled"
    created_at := n }

/-- Twelve trades, so that `tail(10)` genuinely truncates. -/
def sampleTrades : List Trade :=
  (List.range 12).map sampleTrade

theorem render_trades_panel_at_most_ten_witness :
    sampleTrades ≠ [] ∧
    (render_trades_panel sampleTrades =
        [TradesPanel.table (recent_trades_rows sampleTrades)] ∧
      (recent_trades_rows sampleTrades).length ≤ 10 ∧
      recent_trades_rows sampleTrades <:+ sampleTrades) :=
  ⟨by decide, render_trades_panel_at_most_ten sampleTrades (by decide)⟩

/-- C6: on a snapshots dataframe with exactly two distinct symbol
pairs, `create_basis_chart` produces exactly two traces, one per
distinct pair (trace names are distinct and range over exactly the
pairs present), and within each trace the points are the rows of that
pair in dataframe order — in particular a sublist of the snapshots as
received. -/
theorem create_basis_chart_two_series (df : List SnapshotRow)
    (h : (df.map SnapshotRow.pair).toFinset.card = 2) :
    (create_basis_chart df).length = 2 ∧
    ((create_basis_chart df).map Trace.name).Nodup ∧
    (∀ p, p ∈ (create_basis_chart df).map Trace.name ↔
      p ∈ df.map SnapshotRow.pair) ∧
    ∀ t ∈ create_basis_chart df,
      t.points = (df.filter (fun r => r.pair = t.name)).map
        (fun r => (r.timestamp, r.basis_percent)) ∧
      List.Sublist t.points
        (df.map (fun r => (r.timestamp, r.basis_percent))) := by
  have hnames : (create_basis_chart df).map Trace.name =
      uniqueKeys (df.map SnapshotRow.pair) := by
    rw [create_basis_chart, List.map_map]
    exact List.map_id _
  refine ⟨?_, ?_, ?_, ?_⟩
  · have := length_uniqueKeys (df.map SnapshotRow.pair)
    simpa [create_basis_chart, h] using this
  · rw [hnames]
    exact nodup_uniqueKeys _
  · intro p
    rw [hnames]
    exact mem_uniqueKeys _ p
  · intro t ht
    obtain ⟨p, hp, rfl⟩ := List.mem_map.mp ht
    exact ⟨rfl, List.Sublist.map _ (List.filter_sublist df)⟩

/-- A second concrete snapshot with a different symbol pair. -/
def sampleSnapshot2 : Snapshot :=
  { timestamp := 2
    spot_symbol := "ETH-USD"
    future_symbol := "ETH-PERP"
    spot_price := 3000
    future_price := 3030
    basis_percent := 1 }

/-- Three snapshot rows over exactly two distinct pairs. -/
def sampleDf : List SnapshotRow :=
  add_pair_column
    [sampleSnapshot, sampleSnapshot2, { sampleSnapshot with timestamp := 3 }]

theorem create_basis_chart_two_series_witness :
    (sampleDf.map SnapshotRow.pair).toFinset.card = 2 ∧
    ((create_basis_chart sampleDf).length = 2 ∧
      ((create_basis_chart sampleDf).map Trace.name).Nodup ∧
      (∀ p, p ∈ (create_basis_chart sampleDf).map Trace.name ↔
        p ∈ sampleDf.map SnapshotRow.pair) ∧
      ∀ t ∈ create_basis_chart sampleDf,
        t.points = (sampleDf.filter (fun r => r.pair = t.name)).map
          (fun r => (r.timestamp, r.basis_percent)) ∧
        List.Sublist t.points
          (sampleDf.map (fun r => (r.timestamp, r.basis_percent)))) :=
  ⟨by decide, create_basis_chart_two_series sampleDf (by decide)⟩

/-- C8: `create_position_chart` is a plain (deterministic, stateless)
function of the positions data; it groups the (symbol, size) bars by
side, and every series gets the fixed color mapping long→green
(`#00CC88`), short→red (`#FF4444`). -/
theorem create_position_chart_groups_and_colors (df : List Position)
    (t : BarSeries) (h : t ∈ create_position_chart df) :
    (t.side = "long" → t.color = some "#00CC88") ∧
    (t.side = "short" → t.color = some "#FF4444") ∧
    t.bars = (df.filter (fun p => p.side = t.side)).map
      (fun p => (p.symbol, p.size)) := by
  obtain ⟨s, hs, rfl⟩ := List.mem_map.mp h
  refine ⟨?_, ?_, rfl⟩
  · intro hside
    simp only at hside
    simp [color_discrete_map, hside]
  · intro hside
    simp only at hside
    simp [color_discrete_map, hside]

/-- A concrete positions list with one long and one short position. -/
def samplePositions : List Position :=
  [{ symbol := "BTC-USD", side := "long", size := 2, entry_price := 50000,
      mark_price := 50500, unrealized_pl := 1000 },
    { symbol := "ETH-USD", side := "short", size := 3, entry_price := 3000,
      mark_price := 2990, unrealized_pl := 30 }]

/-- The series `create_position_chart` builds for the long side of
`samplePositions`. -/
def sampleLongSeries : BarSeries :=
  { side := "long", color := some "#00CC88", bars := [("BTC-USD", 2)] }

theorem create_position_chart_groups_and_colors_witness :
    sampleLongSeries ∈ create_position_chart samplePositions ∧
    ((sampleLongSeries.side = "long" →
        sampleLongSeries.color = some "#00CC88") ∧
      (sampleLongSeries.side = "short" →
        sampleLongSeries.color = some "#FF4444") ∧
      sampleLongSeries.bars =
        (samplePositions.filter
            (fun p => p.side = sampleLongSeries.side)).map
          (fun p => (p.symbol, p.size))) :=
  ⟨by decide,
    create_position_chart_groups_and_colors samplePositions
      sampleLongSeries (by decide)⟩
